import Mathlib

/-!
A shallow embedding of `hackathon_judge.py` (a hackathon scoring tool).

Strings are Lean `String`s; Python `str.strip` / `str.lower` are embedded as
`pyStrip` / `pyLower` over the underlying character list, restricted to the
ASCII behaviour the program exercises.  Numeric rating values are embedded as
exact rationals (`ℚ`); Python's `round(x, 2)` (round half to even on the
decimal value, shared with pandas' `.round(2)`) is embedded as `round2`.
The CSV file `scores.csv` is embedded as an explicit `StoreState` that is
threaded through the two public operations; `pandas.read_csv` becomes
`readCsv`, which can fail the way the library does (missing file, empty file,
unparsable contents), and `DataFrame.to_csv` becomes returning a new
`StoreState.ok` value.
-/

/-- Python whitespace characters recognised by `str.strip` (ASCII range). -/
def pyIsSpace (c : Char) : Bool :=
  c = ' ' || c = '\t' || c = '\n' || c = '\r' || c = '\x0b' || c = '\x0c'

/-- Embedding of Python `str.strip()`: drop leading and trailing whitespace. -/
def pyStrip (s : String) : String :=
  ⟨((s.data.dropWhile pyIsSpace).reverse.dropWhile pyIsSpace).reverse⟩

/-- ASCII lower-casing of one character, as Python `str.lower` acts on ASCII. -/
def pyLowerChar (c : Char) : Char :=
  if 'A' ≤ c ∧ c ≤ 'Z' then Char.ofNat (c.toNat + 32) else c

/-- Embedding of Python `str.lower()` (ASCII fragment). -/
def pyLower (s : String) : String :=
  ⟨s.data.map pyLowerChar⟩

/-- Lexicographic comparison of character lists by code point: the order
Python uses to compare strings (and hence the order of `sorted` on a list of
strings).  Written as a structurally recursive Boolean function so that it
evaluates on concrete inputs. -/
def pyCharListLt : List Char → List Char → Bool
  | [], [] => false
  | [], _ :: _ => true
  | _ :: _, [] => false
  | a :: as, b :: bs => if a < b then true else if b < a then false else pyCharListLt as bs

/-- The (total) order `a <= b` on strings as Python compares them. -/
def strLe (a b : String) : Prop := pyCharListLt b.data a.data = false

instance : DecidableRel strLe :=
  fun _ _ => inferInstanceAs (Decidable (_ = false))

/-- Truncation toward zero, as Python `int()` on a number. -/
def pyInt (q : ℚ) : ℤ := q.num / (q.den : ℤ)

/-- Floor of a rational, written with integer floor-division so that it is
kernel-reducible on concrete inputs. -/
def ratFloor (q : ℚ) : ℤ := Int.fdiv q.num (q.den : ℤ)

/-- Round half to even to the nearest integer, the rounding used by Python's
builtin `round` and by pandas/numpy `.round`. -/
def roundHalfEven (x : ℚ) : ℤ :=
  let f := ratFloor x
  let r := x - (f : ℚ)
  if r < 1 / 2 then f
  else if 1 / 2 < r then f + 1
  else if f % 2 = 0 then f else f + 1

/-- Embedding of `round(x, 2)`. -/
def round2 (x : ℚ) : ℚ := (roundHalfEven (x * 100) : ℚ) / 100

/-- One row of `scores.csv` (the `COLUMNS` of the source). -/
structure ScoreRecord where
  timestamp : String
  judge_name : String
  team_name : String
  go_live : ℚ
  usefulness : ℚ
  taste : ℚ
  problem_statement : ℚ
deriving Repr, DecidableEq

/-- The observable states of the persisted `scores.csv` resource:
present and parsable with a list of data rows (a header-only file is
`ok []`), present but zero bytes, absent, or present but unparsable. -/
inductive StoreState where
  | ok (records : List ScoreRecord)
  | emptyFile
  | absent
  | corrupt (msg : String)
deriving Repr, DecidableEq

/-- The exceptions `pandas.read_csv` raises in the states above:
`EmptyDataError` for a zero-byte file, and any other exception
(`FileNotFoundError`, `ParserError`, ...) carrying its message. -/
inductive PyError where
  | emptyData (msg : String)
  | other (msg : String)
deriving Repr, DecidableEq

/-- The `str(e)` text of an exception. -/
def PyError.msg : PyError → String
  | .emptyData m => m
  | .other m => m

/-- Embedding of `pd.read_csv('scores.csv')`. -/
def readCsv : StoreState → Except PyError (List ScoreRecord)
  | .ok rs => .ok rs
  | .emptyFile => .error (.emptyData ("No columns to parse from file"))
  | .absent => .error (.other ("No such file or directory: scores.csv"))
  | .corrupt m => .error (.other m)

/-- The read in `submit_score` (source lines 36-39): `read_csv` with
`EmptyDataError` handled by substituting an empty table. -/
def readForSubmit (store : StoreState) : Except PyError (List ScoreRecord) :=
  match readCsv store with
  | .ok rs => .ok rs
  | .error (.emptyData _) => .ok []
  | .error e => .error e

/-- Source lines 18-26: the weighted score on the 100-point scale. -/
def calculate_final_score (go_live usefulness taste problem_statement : ℚ) : ℚ :=
  round2 ((go_live * 0.30 + usefulness * 0.30 + taste * 0.20 + problem_statement * 0.20) * 20)

/-- The duplicate predicate of source lines 48-51: stored judge name equal
case-insensitively to the stripped incoming judge name, and stored team name
equal (exactly) to the incoming team name. -/
def matchesPair (judge_name team_name : String) (r : ScoreRecord) : Bool :=
  pyLower r.judge_name == pyLower (pyStrip judge_name) && r.team_name == team_name

/-- The body of the `try:` block of `submit_score` (source lines 34-73). -/
def submitBody (now judge_name team_name : String)
    (go_live usefulness taste problem_statement : ℚ) (store : StoreState) :
    Except PyError ((String × String) × StoreState) :=
  match readForSubmit store with
  | .error e => .error e
  | .ok scores_df =>
    if go_live < 0 ∨ 5 < go_live ∨ usefulness < 0 ∨ 5 < usefulness ∨
        taste < 0 ∨ 5 < taste ∨ problem_statement < 0 ∨ 5 < problem_statement then
      .ok (("All scores must be between 0 and 5!", judge_name), store)
    else
      let scores_df' :=
        if 0 < scores_df.length ∧ scores_df.filter (matchesPair judge_name team_name) ≠ [] then
          scores_df.filter (fun r => !(matchesPair judge_name team_name r))
        else scores_df
      let new_score : ScoreRecord :=
        ⟨now, pyStrip judge_name, pyStrip team_name,
          go_live, usefulness, taste, problem_statement⟩
      .ok (("✅ Score submitted successfully for team " ++ team_name ++ "!", judge_name),
        .ok (scores_df' ++ [new_score]))

/-- Source lines 28-76: `submit_score`.  The timestamp the source takes from
`datetime.now()` is passed in explicitly as `now`. -/
def submit_score (now judge_name team_name : String)
    (go_live usefulness taste problem_statement : ℚ) (store : StoreState) :
    (String × String) × StoreState :=
  if pyStrip judge_name = "" then (("Please enter your name!", judge_name), store)
  else if team_name = "" then (("Please select a team!", judge_name), store)
  else
    match submitBody now judge_name team_name go_live usefulness taste problem_statement store with
    | .ok r => r
    | .error e => (("Error submitting score: " ++ e.msg, judge_name), store)

/-- Source lines 157-173: the fixed team enumeration. -/
def TEAM_NAMES : List String :=
  ["tehlaninayan7", "kya@karu.mai", "Sugarplum", "Bob the Builders AI",
   "permissionless", "LLM Ninjas", "MailMatch", "Ironold", "ChaiBiscuit",
   "Dostwriter", "Neural Babel", "Fluid", "Team 1", "fiction AI", "SOLOYOLO"]

/-- One row of the `team_stats` table of `generate_report`. -/
structure TeamAggregate where
  team_name : String
  num_judges : ℕ
  go_live : ℚ
  usefulness : ℚ
  taste : ℚ
  problem_statement : ℚ
  final_score : ℚ
deriving Repr, DecidableEq

/-- The group keys of `scores_df.groupby('team_name')`: the distinct team
names occurring in the table, in ascending order (pandas sorts group keys). -/
def teamKeys (rs : List ScoreRecord) : List String :=
  List.insertionSort strLe ((rs.map ScoreRecord.team_name).dedup)

/-- The aggregate row for one team (source lines 85-99): judge count, the
four per-criterion means rounded to 2 decimals, and the final score computed
from the rounded means. -/
def teamAggregate (rs : List ScoreRecord) (team : String) : TeamAggregate :=
  let group := rs.filter (fun r => r.team_name == team)
  let n := group.length
  let g := round2 ((group.map ScoreRecord.go_live).sum / (n : ℚ))
  let u := round2 ((group.map ScoreRecord.usefulness).sum / (n : ℚ))
  let t := round2 ((group.map ScoreRecord.taste).sum / (n : ℚ))
  let p := round2 ((group.map ScoreRecord.problem_statement).sum / (n : ℚ))
  ⟨team, n, g, u, t, p, calculate_final_score g u t p⟩

/-- The descending order on final scores used at source line 102. -/
def aggGE (a b : TeamAggregate) : Prop := b.final_score ≤ a.final_score

instance : DecidableRel aggGE :=
  fun a b => (inferInstance : Decidable (b.final_score ≤ a.final_score))

instance : IsTotal TeamAggregate aggGE :=
  ⟨fun a b => le_total b.final_score a.final_score⟩

instance : IsTrans TeamAggregate aggGE :=
  ⟨fun _ _ _ h1 h2 => le_trans h2 h1⟩

/-- Source lines 85-102: the aggregate table, sorted by final score
descending. -/
def team_stats (rs : List ScoreRecord) : List TeamAggregate :=
  List.insertionSort aggGE ((teamKeys rs).map (teamAggregate rs))

/-- Source line 140: `scores_df['judge_name'].nunique()` — the number of
distinct (exact, case-sensitive) judge name strings in the table. -/
def nuniqueJudges (rs : List ScoreRecord) : ℕ :=
  ((rs.map ScoreRecord.judge_name).dedup).length

/-- Source line 145: `sorted(set(TEAM_NAMES) - set(team_stats.index))` — the
enumerated teams with no stored score, in ascending string order. -/
def unscored_teams (rs : List ScoreRecord) : List String :=
  List.insertionSort strLe
    ((TEAM_NAMES.filter (fun t => !((rs.map ScoreRecord.team_name).contains t))).dedup)

/-- Source line 109: medal glyph for the top three ranks. -/
def medal (idx : ℕ) : String :=
  if idx = 1 then "🥇" else if idx = 2 then "🥈" else if idx = 3 then "🥉" else "  "

/-- Rendering of a rational in the report text.  The source prints floats
(`:.1f` and pandas' default float rendering); the digits it prints are not
relied upon by any theorem, so the rendering here is an exact one. -/
def ratStr (q : ℚ) : String :=
  toString q.num ++ (if q.den = 1 then "" else "/" ++ toString q.den)

/-- Source lines 120-133: a 20-segment bar with `int(mean * 4)` filled. -/
def bar (mean : ℚ) : String :=
  let n := (pyInt (mean * 4)).toNat
  String.mk (List.replicate n '█') ++ String.mk (List.replicate (20 - n) '░')

/-- Source lines 108-135: the report section of one ranked team. -/
def teamSection (idx : ℕ) (a : TeamAggregate) : String :=
  medal idx ++ " Rank #" ++ toString idx ++ ": " ++ a.team_name ++ "\n"
    ++ String.mk (List.replicate 40 '─') ++ "\n"
    ++ "📊 FINAL SCORE: " ++ ratStr a.final_score ++ "/100"
    ++ " (Scored by " ++ toString a.num_judges ++ " judge"
    ++ (if 1 < a.num_judges then "s" else "") ++ ")\n\n"
    ++ "Detailed Scores:\n"
    ++ "Go Live       (30%): " ++ ratStr a.go_live ++ "/5 " ++ bar a.go_live ++ "\n"
    ++ "Usefulness   (30%): " ++ ratStr a.usefulness ++ "/5 " ++ bar a.usefulness ++ "\n"
    ++ "Taste        (20%): " ++ ratStr a.taste ++ "/5 " ++ bar a.taste ++ "\n"
    ++ "Problem Stmt (20%): " ++ ratStr a.problem_statement ++ "/5 " ++ bar a.problem_statement ++ "\n"
    ++ "\n" ++ String.mk (List.replicate 40 '=') ++ "\n\n"

/-- Source lines 104-151: the rendered report for a non-empty table. -/
def renderReport (scores_df : List ScoreRecord) : String :=
  let stats := team_stats scores_df
  let header := "🏆 HACKATHON FINAL RANKINGS 🏆\n" ++ String.mk (List.replicate 40 '=') ++ "\n\n"
  let body := String.join ((stats.enumFrom 1).map (fun p => teamSection p.1 p.2))
  let avg := (stats.map TeamAggregate.final_score).sum / (stats.length : ℚ)
  let best := ((stats.map TeamAggregate.final_score).max?).getD 0
  let summary :=
    "Total Teams Evaluated: " ++ toString stats.length ++ "\n"
      ++ "Total Scores Submitted: " ++ toString scores_df.length ++ "\n"
      ++ "Number of Judges: " ++ toString (nuniqueJudges scores_df) ++ "\n"
      ++ "Average Score: " ++ ratStr avg ++ "/100\n"
      ++ "Highest Score: " ++ ratStr best ++ "/100\n"
  let unscored := unscored_teams scores_df
  let tail :=
    if unscored ≠ [] then
      "\nTeams Not Yet Scored:\n" ++ String.join (unscored.map (fun t => "• " ++ t ++ "\n"))
    else ""
  header ++ body ++ summary ++ tail

/-- Source lines 78-154: `generate_report`. -/
def generate_report (store : StoreState) : String :=
  match readCsv store with
  | .error e => "Error generating report: " ++ e.msg
  | .ok scores_df =>
    if scores_df.length = 0 then "No scores submitted yet!"
    else renderReport scores_df

/-- The weighted-score formula exactly as the specification writes it, for
comparison with `calculate_final_score` as translated from the source. -/
def final_score_spec (go_live_mean usefulness_mean taste_mean problem_statement_mean : ℚ) : ℚ :=
  round2 (((go_live_mean * 0.30) + (usefulness_mean * 0.30)
    + (taste_mean * 0.20) + (problem_statement_mean * 0.20)) * 20)

section

attribute [local semireducible] Rat.add Rat.mul Rat.inv Rat.sub Rat.ofScientific

example : calculate_final_score 5 5 5 5 = 100 := by decide
example : calculate_final_score 4 3 5 2 = 70 := by decide
example : pyStrip " J " = "J" := by decide
example : pyLower "Alice" = "alice" := by decide
example : generate_report (.ok []) = "No scores submitted yet!" := by decide

/-! ### Order lemmas for the Python string order -/

/-- `pyCharListLt` is asymmetric. -/
theorem pyCharListLt_asymm :
    ∀ x y : List Char, pyCharListLt x y = true → pyCharListLt y x = false
  | [], [], h => by simp [pyCharListLt] at h
  | [], _ :: _, _ => by simp [pyCharListLt]
  | _ :: _, [], h => by simp [pyCharListLt] at h
  | a :: as, b :: bs, h => by
    by_cases hab : a < b
    · simp [pyCharListLt, lt_asymm hab, hab]
    · by_cases hba : b < a
      · simp [pyCharListLt, hab, hba] at h
      · have hrec := pyCharListLt_asymm as bs (by simpa [pyCharListLt, hab, hba] using h)
        simp [pyCharListLt, hab, hba, hrec]

/-- `strLe` is total. -/
theorem strLe_total (a b : String) : strLe a b ∨ strLe b a := by
  by_cases h : pyCharListLt b.data a.data = false
  · exact Or.inl h
  · refine Or.inr (pyCharListLt_asymm _ _ ?_)
    cases hx : pyCharListLt b.data a.data
    · exact absurd hx h
    · rfl

/-- The complement of `pyCharListLt` is transitive. -/
theorem pyCharListLt_trans_false :
    ∀ x y z : List Char, pyCharListLt y x = false → pyCharListLt z y = false →
      pyCharListLt z x = false := by
  intro x
  induction x with
  | nil =>
    intro y z h1 h2
    cases z with
    | nil => rfl
    | cons c cs => rfl
  | cons a as ih =>
    intro y z h1 h2
    cases z with
    | nil =>
      cases y with
      | nil => simp [pyCharListLt] at h1
      | cons b bs => simp [pyCharListLt] at h2
    | cons c cs =>
      cases y with
      | nil => simp [pyCharListLt] at h1
      | cons b bs =>
        simp only [pyCharListLt] at h1 h2 ⊢
        by_cases hba : b < a
        · rw [if_pos hba] at h1
          simp at h1
        · rw [if_neg hba] at h1
          by_cases hcb : c < b
          · rw [if_pos hcb] at h2
            simp at h2
          · rw [if_neg hcb] at h2
            have hab2 : a ≤ b := not_lt.mp hba
            have hbc2 : b ≤ c := not_lt.mp hcb
            rw [if_neg (not_lt.mpr (le_trans hab2 hbc2))]
            by_cases hab : a < b
            · rw [if_pos (lt_of_lt_of_le hab hbc2)]
            · rw [if_neg hab] at h1
              have heq : a = b := le_antisymm hab2 (not_lt.mp hab)
              by_cases hbc : b < c
              · rw [if_pos (heq ▸ hbc)]
              · rw [if_neg hbc] at h2
                by_cases hac : a < c
                · rw [if_pos hac]
                · rw [if_neg hac]
                  exact ih bs cs h1 h2

/-- `strLe` is transitive. -/
theorem strLe_trans (a b c : String) (h1 : strLe a b) (h2 : strLe b c) : strLe a c :=
  pyCharListLt_trans_false a.data b.data c.data h1 h2

/-! ### Helper lemmas about `submit_score` -/

/-- The conditional duplicate-removal of source lines 47-57 is the same as
unconditionally keeping the non-matching rows. -/
theorem dedupFilter_eq (j team : String) (rs : List ScoreRecord) :
    (if 0 < rs.length ∧ rs.filter (matchesPair j team) ≠ [] then
      rs.filter (fun r => !(matchesPair j team r))
    else rs) = rs.filter (fun r => !(matchesPair j team r)) := by
  split
  · rfl
  · rename_i h
    rw [not_and_or] at h
    rcases h with h | h
    · have : rs = [] := by
        cases rs with
        | nil => rfl
        | cons a l => exact absurd (by simp) h
      simp [this]
    · rw [not_ne_iff, List.filter_eq_nil_iff] at h
      exact (List.filter_eq_self.2 (fun a ha => by simp [h a ha])).symm

/-- Reading the store in `submit_score` succeeds on a zero-byte file or any
parsable file. -/
theorem readForSubmit_ok (store : StoreState)
    (hstore : store = StoreState.emptyFile ∨ ∃ rs, store = StoreState.ok rs) :
    ∃ rs0, readForSubmit store = Except.ok rs0 := by
  rcases hstore with h | ⟨rs, h⟩ <;> subst h
  · exact ⟨[], rfl⟩
  · exact ⟨rs, rfl⟩

/-- The shape of a fully successful `submit_score`: prior rows matching the
(case-insensitive judge, exact team) pair are removed and the new row is
appended at the end. -/
theorem submit_score_success (now j team : String) (g u t p : ℚ) (store : StoreState)
    (rs0 : List ScoreRecord) (hread : readForSubmit store = Except.ok rs0)
    (hj : pyStrip j ≠ "") (ht : team ≠ "")
    (hg0 : 0 ≤ g) (hg5 : g ≤ 5) (hu0 : 0 ≤ u) (hu5 : u ≤ 5)
    (ht0 : 0 ≤ t) (ht5 : t ≤ 5) (hp0 : 0 ≤ p) (hp5 : p ≤ 5) :
    submit_score now j team g u t p store =
      (("✅ Score submitted successfully for team " ++ team ++ "!", j),
        StoreState.ok (rs0.filter (fun r => !(matchesPair j team r))
          ++ [⟨now, pyStrip j, pyStrip team, g, u, t, p⟩])) := by
  have hcond : ¬(g < 0 ∨ 5 < g ∨ u < 0 ∨ 5 < u ∨ t < 0 ∨ 5 < t ∨ p < 0 ∨ 5 < p) := by
    push_neg
    exact ⟨hg0, hg5, hu0, hu5, ht0, ht5, hp0, hp5⟩
  simp only [submit_score, submitBody, hread, if_neg hj, if_neg ht, if_neg hcond, dedupFilter_eq]

/-! ### Claim theorems -/

/-- C2: the final score is the spec's weighted formula rounded to 2 decimal
places; all-5 means give exactly 100, all-0 means give exactly 0, and means
(4, 3, 5, 2) give exactly 70. -/
theorem final_score_formula_and_values :
    (∀ g u t p : ℚ, calculate_final_score g u t p = final_score_spec g u t p) ∧
    calculate_final_score 5 5 5 5 = 100 ∧
    calculate_final_score 0 0 0 0 = 0 ∧
    calculate_final_score 4 3 5 2 = 70 :=
  ⟨fun _ _ _ _ => rfl, by decide, by decide, by decide⟩

/-- C3: with a non-empty stripped judge name, a non-empty team name and a
readable store, `submit_score` rejects exactly when some rating is below 0 or
above 5 (returning the range message and leaving the store untouched), and
succeeds whenever all four ratings lie in [0, 5]. -/
theorem submit_rating_range_check (now j team : String) (g u t p : ℚ) (store : StoreState)
    (hj : pyStrip j ≠ "") (ht : team ≠ "")
    (hstore : store = StoreState.emptyFile ∨ ∃ rs, store = StoreState.ok rs) :
    ((g < 0 ∨ 5 < g ∨ u < 0 ∨ 5 < u ∨ t < 0 ∨ 5 < t ∨ p < 0 ∨ 5 < p) →
      submit_score now j team g u t p store
        = (("All scores must be between 0 and 5!", j), store)) ∧
    ((0 ≤ g ∧ g ≤ 5 ∧ 0 ≤ u ∧ u ≤ 5 ∧ 0 ≤ t ∧ t ≤ 5 ∧ 0 ≤ p ∧ p ≤ 5) →
      ∃ rs', submit_score now j team g u t p store
        = (("✅ Score submitted successfully for team " ++ team ++ "!", j), StoreState.ok rs')) := by
  obtain ⟨rs0, hread⟩ := readForSubmit_ok store hstore
  constructor
  · intro hbad
    simp only [submit_score, submitBody, hread, if_neg hj, if_neg ht, if_pos hbad]
  · rintro ⟨hg0, hg5, hu0, hu5, ht0, ht5, hp0, hp5⟩
    exact ⟨_, submit_score_success now j team g u t p store rs0 hread hj ht
      hg0 hg5 hu0 hu5 ht0 ht5 hp0 hp5⟩

/-- Witness for C3 at concrete inputs: rating 6 is rejected with the range
message and no write; ratings (3, 3, 3, 3) are accepted. -/
theorem submit_rating_range_check_witness :
    submit_score ("ts") ("Judy") ("Fluid") 6 0 0 0 (StoreState.ok [])
      = (("All scores must be between 0 and 5!", "Judy"), StoreState.ok []) ∧
    ∃ rs', submit_score ("ts") ("Judy") ("Fluid") 3 3 3 3 (StoreState.ok [])
      = (("✅ Score submitted successfully for team " ++ "Fluid" ++ "!", "Judy"),
          StoreState.ok rs') := by
  constructor
  · exact (submit_rating_range_check ("ts") ("Judy") ("Fluid") 6 0 0 0 (StoreState.ok [])
      (by decide) (by decide) (Or.inr ⟨[], rfl⟩)).1 (by norm_num)
  · exact (submit_rating_range_check ("ts") ("Judy") ("Fluid") 3 3 3 3 (StoreState.ok [])
      (by decide) (by decide) (Or.inr ⟨[], rfl⟩)).2 (by norm_num)

/-- C1 counterexample: with the team name "T " (trailing blank, so not equal
to its stripped form), two successful submissions by the same judge for the
same (judge, team) pair leave the store with two rows and with zero rows
matching the pair predicate, not exactly one: the stored rows carry the
stripped team name "T", which the exact team comparison of the duplicate
check never matches against the incoming "T ". -/
theorem upsert_pair_untrimmed_team_cex :
    (submit_score ("t1") ("J") ("T ") 3 3 3 3 (StoreState.ok [])).1.1
      = "✅ Score submitted successfully for team " ++ "T " ++ "!" ∧
    (submit_score ("t2") ("J") ("T ") 4 4 4 4
        (submit_score ("t1") ("J") ("T ") 3 3 3 3 (StoreState.ok [])).2).1.1
      = "✅ Score submitted successfully for team " ++ "T " ++ "!" ∧
    ∃ rs2, (submit_score ("t2") ("J") ("T ") 4 4 4 4
        (submit_score ("t1") ("J") ("T ") 3 3 3 3 (StoreState.ok [])).2).2 = StoreState.ok rs2
      ∧ (rs2.filter (matchesPair ("J") ("T "))).length = 0
      ∧ rs2.length = 2 := by
  refine ⟨by decide, by decide,
    [⟨"t1", "J", "T", 3, 3, 3, 3⟩, ⟨"t2", "J", "T", 4, 4, 4, 4⟩], by decide, by decide, by decide⟩

/-- C1 (amended): for every store and every pair of successful submissions
with the same case-insensitive stripped judge name and the same team name,
provided the team name equals its stripped form (as every name of the team
enumeration does), the resulting store has exactly one row matching the
(case-insensitive judge, exact team) pair, carrying the later submission's
rating values; the second submission removes every matching prior row before
appending its own. -/
theorem upsert_single_record_per_pair
    (now1 now2 j1 j2 team : String) (g1 u1 t1 p1 g2 u2 t2 p2 : ℚ) (store : StoreState)
    (hteam : pyStrip team = team) (htne : team ≠ "")
    (hj1 : pyStrip j1 ≠ "") (hj2 : pyStrip j2 ≠ "")
    (hpair : pyLower (pyStrip j1) = pyLower (pyStrip j2))
    (hstore : store = StoreState.emptyFile ∨ ∃ rs, store = StoreState.ok rs)
    (h1 : 0 ≤ g1 ∧ g1 ≤ 5 ∧ 0 ≤ u1 ∧ u1 ≤ 5 ∧ 0 ≤ t1 ∧ t1 ≤ 5 ∧ 0 ≤ p1 ∧ p1 ≤ 5)
    (h2 : 0 ≤ g2 ∧ g2 ≤ 5 ∧ 0 ≤ u2 ∧ u2 ≤ 5 ∧ 0 ≤ t2 ∧ t2 ≤ 5 ∧ 0 ≤ p2 ∧ p2 ≤ 5) :
    ∃ rs1 rs2,
      (submit_score now1 j1 team g1 u1 t1 p1 store).1.1
          = "✅ Score submitted successfully for team " ++ team ++ "!"
        ∧ (submit_score now1 j1 team g1 u1 t1 p1 store).2 = StoreState.ok rs1
        ∧ (submit_score now2 j2 team g2 u2 t2 p2 (StoreState.ok rs1)).1.1
          = "✅ Score submitted successfully for team " ++ team ++ "!"
        ∧ (submit_score now2 j2 team g2 u2 t2 p2 (StoreState.ok rs1)).2 = StoreState.ok rs2
        ∧ rs2 = rs1.filter (fun r => !(matchesPair j2 team r))
            ++ [⟨now2, pyStrip j2, team, g2, u2, t2, p2⟩]
        ∧ rs2.filter (matchesPair j2 team) = [⟨now2, pyStrip j2, team, g2, u2, t2, p2⟩] := by
  obtain ⟨hg10, hg15, hu10, hu15, ht10, ht15, hp10, hp15⟩ := h1
  obtain ⟨hg20, hg25, hu20, hu25, ht20, ht25, hp20, hp25⟩ := h2
  obtain ⟨rs0, hread⟩ := readForSubmit_ok store hstore
  have e1 := submit_score_success now1 j1 team g1 u1 t1 p1 store rs0 hread hj1 htne
    hg10 hg15 hu10 hu15 ht10 ht15 hp10 hp15
  rw [hteam] at e1
  set rs1 := rs0.filter (fun r => !(matchesPair j1 team r)) ++ [⟨now1, pyStrip j1, team, g1, u1, t1, p1⟩] with hrs1
  have e2 := submit_score_success now2 j2 team g2 u2 t2 p2 (StoreState.ok rs1) rs1 rfl hj2 htne
    hg20 hg25 hu20 hu25 ht20 ht25 hp20 hp25
  rw [hteam] at e2
  have hmatch : matchesPair j2 team (⟨now2, pyStrip j2, team, g2, u2, t2, p2⟩ : ScoreRecord) = true := by
    simp [matchesPair]
  refine ⟨rs1, _, by rw [e1], by rw [e1], by rw [e2], by rw [e2], rfl, ?_⟩
  rw [List.filter_append, List.filter_filter]
  have hnil : rs1.filter (fun a => matchesPair j2 team a && !(matchesPair j2 team a)) = [] :=
    List.filter_eq_nil_iff.2 (fun a _ => by simp)
  rw [hnil, List.nil_append]
  simp [hmatch]

/-- Witness for C1 (amended) at concrete inputs: judges "Amy" and "AMY"
scoring team "Fluid" twice leave exactly one matching row with the second
submission's ratings. -/
theorem upsert_single_record_per_pair_witness :
    ∃ rs1 rs2,
      (submit_score ("t1") ("Amy") ("Fluid") 3 3 3 3 (StoreState.ok [])).1.1
          = "✅ Score submitted successfully for team " ++ "Fluid" ++ "!"
        ∧ (submit_score ("t1") ("Amy") ("Fluid") 3 3 3 3 (StoreState.ok [])).2 = StoreState.ok rs1
        ∧ (submit_score ("t2") ("AMY") ("Fluid") 4 4 4 4 (StoreState.ok rs1)).1.1
          = "✅ Score submitted successfully for team " ++ "Fluid" ++ "!"
        ∧ (submit_score ("t2") ("AMY") ("Fluid") 4 4 4 4 (StoreState.ok rs1)).2 = StoreState.ok rs2
        ∧ rs2 = rs1.filter (fun r => !(matchesPair ("AMY") ("Fluid") r))
            ++ [⟨"t2", pyStrip ("AMY"), "Fluid", 4, 4, 4, 4⟩]
        ∧ rs2.filter (matchesPair ("AMY") ("Fluid"))
            = [⟨"t2", pyStrip ("AMY"), "Fluid", 4, 4, 4, 4⟩] :=
  upsert_single_record_per_pair ("t1") ("t2") ("Amy") ("AMY") ("Fluid")
    3 3 3 3 4 4 4 4 (StoreState.ok []) (by decide) (by decide) (by decide) (by decide)
    (by decide) (Or.inr ⟨[], rfl⟩) (by norm_num) (by norm_num)

/-- A successful `try:` body of `submit_score` returns either the range
message or the success message. -/
theorem submitBody_ok_cases (now j team : String) (g u t p : ℚ) (store : StoreState)
    (r : (String × String) × StoreState)
    (h : submitBody now j team g u t p store = Except.ok r) :
    r.1.1 = "All scores must be between 0 and 5!" ∨
    r.1.1 = "✅ Score submitted successfully for team " ++ team ++ "!" := by
  cases hr : readForSubmit store with
  | error e =>
    have hb2 : submitBody now j team g u t p store = Except.error e := by
      simp only [submitBody, hr]
    rw [hb2] at h
    exact Except.noConfusion h
  | ok rs0 =>
    by_cases hcond : (g < 0 ∨ 5 < g ∨ u < 0 ∨ 5 < u ∨ t < 0 ∨ 5 < t ∨ p < 0 ∨ 5 < p)
    · have hb2 : submitBody now j team g u t p store
          = Except.ok (("All scores must be between 0 and 5!", j), store) := by
        simp only [submitBody, hr, if_pos hcond]
      rw [hb2] at h
      injection h with h2
      rw [← h2]
      exact Or.inl rfl
    · have hb2 : submitBody now j team g u t p store
          = Except.ok (("✅ Score submitted successfully for team " ++ team ++ "!", j),
              StoreState.ok ((if 0 < rs0.length ∧ rs0.filter (matchesPair j team) ≠ [] then
                  rs0.filter (fun x => !(matchesPair j team x)) else rs0)
                ++ [⟨now, pyStrip j, pyStrip team, g, u, t, p⟩])) := by
        simp only [submitBody, hr, if_neg hcond]
      rw [hb2] at h
      injection h with h2
      rw [← h2]
      exact Or.inr rfl

/-- C9: on every validation failure — whitespace-only judge name, empty team
name, or (with a readable store) a rating outside [0, 5] — `submit_score`
returns the corresponding validation message and leaves the store exactly
unchanged. -/
theorem validation_failure_no_write (now j team : String) (g u t p : ℚ) (store : StoreState)
    (hfail : pyStrip j = "" ∨ team = "" ∨
      ((store = StoreState.emptyFile ∨ ∃ rs, store = StoreState.ok rs) ∧
        (g < 0 ∨ 5 < g ∨ u < 0 ∨ 5 < u ∨ t < 0 ∨ 5 < t ∨ p < 0 ∨ 5 < p))) :
    (submit_score now j team g u t p store).2 = store ∧
    ((submit_score now j team g u t p store).1.1 = "Please enter your name!" ∨
     (submit_score now j team g u t p store).1.1 = "Please select a team!" ∨
     (submit_score now j team g u t p store).1.1 = "All scores must be between 0 and 5!") := by
  rcases hfail with hj | ht | ⟨hstore, hbad⟩
  · simp [submit_score, hj]
  · by_cases hj : pyStrip j = ""
    · simp [submit_score, hj]
    · simp [submit_score, hj, ht]
  · by_cases hj : pyStrip j = ""
    · simp [submit_score, hj]
    · by_cases ht : team = ""
      · simp [submit_score, hj, ht]
      · obtain ⟨rs0, hread⟩ := readForSubmit_ok store hstore
        simp [submit_score, submitBody, hread, if_neg hj, if_neg ht, if_pos hbad]

/-- Witness for C9 at concrete inputs: a whitespace-only judge name is
rejected without a write. -/
theorem validation_failure_no_write_witness :
    (submit_score ("ts") ("  ") ("Fluid") 3 3 3 3 (StoreState.ok [])).2 = StoreState.ok [] ∧
    ((submit_score ("ts") ("  ") ("Fluid") 3 3 3 3 (StoreState.ok [])).1.1
        = "Please enter your name!" ∨
     (submit_score ("ts") ("  ") ("Fluid") 3 3 3 3 (StoreState.ok [])).1.1
        = "Please select a team!" ∨
     (submit_score ("ts") ("  ") ("Fluid") 3 3 3 3 (StoreState.ok [])).1.1
        = "All scores must be between 0 and 5!") :=
  validation_failure_no_write ("ts") ("  ") ("Fluid") 3 3 3 3 (StoreState.ok [])
    (Or.inl (by decide))

/-- C10: `submit_score` never requires the ratings to be integers: any four
rational ratings in [0, 5] are accepted, and the appended row stores the
fractional values exactly as given. -/
theorem submit_accepts_fractional_ratings (now j team : String) (g u t p : ℚ)
    (store : StoreState) (hj : pyStrip j ≠ "") (ht : team ≠ "")
    (hstore : store = StoreState.emptyFile ∨ ∃ rs, store = StoreState.ok rs)
    (hr : 0 ≤ g ∧ g ≤ 5 ∧ 0 ≤ u ∧ u ≤ 5 ∧ 0 ≤ t ∧ t ≤ 5 ∧ 0 ≤ p ∧ p ≤ 5) :
    ∃ rs', (submit_score now j team g u t p store).1.1
        = "✅ Score submitted successfully for team " ++ team ++ "!"
      ∧ (submit_score now j team g u t p store).2 = StoreState.ok rs'
      ∧ rs'.getLast? = some ⟨now, pyStrip j, pyStrip team, g, u, t, p⟩ := by
  obtain ⟨hg0, hg5, hu0, hu5, ht0, ht5, hp0, hp5⟩ := hr
  obtain ⟨rs0, hread⟩ := readForSubmit_ok store hstore
  have e := submit_score_success now j team g u t p store rs0 hread hj ht
    hg0 hg5 hu0 hu5 ht0 ht5 hp0 hp5
  exact ⟨_, by rw [e], by rw [e], List.getLast?_concat _⟩

/-- Witness for C10 at concrete inputs: ratings 2.5 (= 5/2) are accepted and
stored verbatim. -/
theorem submit_accepts_fractional_ratings_witness :
    ∃ rs', (submit_score ("ts") ("Judy") ("Fluid") (5/2) (5/2) (5/2) (5/2)
        (StoreState.ok [])).1.1
        = "✅ Score submitted successfully for team " ++ "Fluid" ++ "!"
      ∧ (submit_score ("ts") ("Judy") ("Fluid") (5/2) (5/2) (5/2) (5/2)
          (StoreState.ok [])).2 = StoreState.ok rs'
      ∧ rs'.getLast? = some ⟨"ts", pyStrip ("Judy"), pyStrip ("Fluid"), 5/2, 5/2, 5/2, 5/2⟩ :=
  submit_accepts_fractional_ratings ("ts") ("Judy") ("Fluid") (5/2) (5/2) (5/2) (5/2)
    (StoreState.ok []) (by decide) (by decide) (Or.inr ⟨[], rfl⟩) (by norm_num)

/-- C4: both public operations return a plain string for every input and
every store state; every internal failure (unreadable or malformed store
included) is converted into a returned error message at the operation's
boundary rather than propagated. -/
theorem public_ops_return_strings (now j team : String) (g u t p : ℚ) (store : StoreState) :
    ((submit_score now j team g u t p store).1.1 = "Please enter your name!" ∨
     (submit_score now j team g u t p store).1.1 = "Please select a team!" ∨
     (submit_score now j team g u t p store).1.1 = "All scores must be between 0 and 5!" ∨
     (submit_score now j team g u t p store).1.1
        = "✅ Score submitted successfully for team " ++ team ++ "!" ∨
     ∃ e, (submit_score now j team g u t p store).1.1 = "Error submitting score: " ++ e) ∧
    (generate_report store = "No scores submitted yet!" ∨
     (∃ rs, readCsv store = Except.ok rs ∧ generate_report store = renderReport rs) ∨
     ∃ e, generate_report store = "Error generating report: " ++ e) := by
  constructor
  · by_cases hj : pyStrip j = ""
    · simp [submit_score, hj]
    · by_cases ht : team = ""
      · simp [submit_score, hj, ht]
      · cases hb : submitBody now j team g u t p store with
        | error e =>
          have : (submit_score now j team g u t p store).1.1
              = "Error submitting score: " ++ e.msg := by
            simp [submit_score, hj, ht, hb]
          exact Or.inr (Or.inr (Or.inr (Or.inr ⟨e.msg, this⟩)))
        | ok r =>
          have hs : submit_score now j team g u t p store = r := by
            simp [submit_score, hj, ht, hb]
          rcases submitBody_ok_cases now j team g u t p store r hb with h | h
          · exact Or.inr (Or.inr (Or.inl (by rw [hs, h])))
          · exact Or.inr (Or.inr (Or.inr (Or.inl (by rw [hs, h]))))
  · cases hc : readCsv store with
    | error e =>
      exact Or.inr (Or.inr ⟨e.msg, by simp [generate_report, hc]⟩)
    | ok rs =>
      by_cases hlen : rs.length = 0
      · exact Or.inl (by simp [generate_report, hc, hlen])
      · refine Or.inr (Or.inl ⟨rs, rfl, ?_⟩)
        simp [generate_report, hc, hlen]

/-- C5 counterexample: a zero-byte store file (zero records) makes
`generate_report` return a pandas `EmptyDataError` message, not the fixed
"no scores yet" message; an absent store file likewise. -/
theorem report_empty_store_error_cex :
    generate_report StoreState.emptyFile
        = "Error generating report: " ++ "No columns to parse from file"
      ∧ generate_report StoreState.emptyFile ≠ "No scores submitted yet!"
      ∧ generate_report StoreState.absent ≠ "No scores submitted yet!" :=
  ⟨rfl, by decide, by decide⟩

/-- C5 (amended): on every store state that is readable with the expected
header and contains zero score records, `generate_report` returns the fixed
empty-state message. -/
theorem report_zero_records_message :
    generate_report (StoreState.ok []) = "No scores submitted yet!" := rfl

/-- A two-team store whose aggregates score 80 (TeamA) and 90 (TeamB). -/
def demoRanking : List ScoreRecord :=
  [⟨"t", "J", "TeamA", 4, 4, 4, 4⟩, ⟨"t", "J", "TeamB", 9/2, 9/2, 9/2, 9/2⟩]

/-- C6: the ranked team list of the report is sorted by final score in
descending order, ranks are the 1-indexed positions in that list, and a team
with final score 90 always appears strictly earlier than one with 80. -/
theorem report_ranking_descending (rs : List ScoreRecord) :
    List.Sorted aggGE (team_stats rs) ∧
    ((team_stats rs).enumFrom 1).map Prod.fst = List.range' 1 (team_stats rs).length ∧
    ∀ i jx : ℕ, ∀ hi : i < (team_stats rs).length, ∀ hj : jx < (team_stats rs).length,
      ((team_stats rs).get ⟨i, hi⟩).final_score = 80 →
      ((team_stats rs).get ⟨jx, hj⟩).final_score = 90 → jx < i := by
  have hsorted : List.Sorted aggGE (team_stats rs) :=
    List.sorted_insertionSort aggGE ((teamKeys rs).map (teamAggregate rs))
  refine ⟨hsorted, List.enumFrom_map_fst 1 (team_stats rs), ?_⟩
  intro i jx hi hj h80 h90
  by_contra hle
  push_neg at hle
  rcases lt_or_eq_of_le hle with hlt | heq
  · have hrel := hsorted.rel_get_of_lt (a := ⟨i, hi⟩) (b := ⟨jx, hj⟩) hlt
    rw [aggGE, h80, h90] at hrel
    norm_num at hrel
  · have hfin : (⟨i, hi⟩ : Fin (team_stats rs).length) = ⟨jx, hj⟩ := Fin.ext heq
    rw [hfin] at h80
    rw [h80] at h90
    norm_num at h90

/-- Witness for C6: in the concrete two-team store, the team scoring 90 is
at position 0 and the team scoring 80 at position 1. -/
theorem report_ranking_descending_witness :
    ((team_stats demoRanking).get ⟨1, by decide⟩).final_score = 80 ∧
    ((team_stats demoRanking).get ⟨0, by decide⟩).final_score = 90 ∧ (0 : ℕ) < 1 := by
  refine ⟨by decide, by decide, ?_⟩
  exact (report_ranking_descending demoRanking).2.2 1 0 (by decide) (by decide)
    (by decide) (by decide)

/-- A store with two rows whose judge names differ only in letter case. -/
def caseRecs : List ScoreRecord :=
  [⟨"t1", "alice", "TeamA", 5, 5, 5, 5⟩, ⟨"t2", "Alice", "TeamB", 5, 5, 5, 5⟩]

/-- C7 counterexample: two stored rows whose judge names differ only in
letter case contribute two, not one, to the report's judge count — the
source counts with a case-sensitive `nunique()`. -/
theorem judge_count_case_insensitive_cex :
    pyLower ("alice") = pyLower ("Alice") ∧ ("alice" : String) ≠ "Alice" ∧
    nuniqueJudges caseRecs = 2 ∧ nuniqueJudges caseRecs ≠ 1 := by decide

/-- C7 (amended): the "Number of Judges" statistic counts distinct stored
judge name strings case-sensitively; two rows whose judge names differ (even
only in case) contribute at least two. -/
theorem judge_count_case_sensitive (rs : List ScoreRecord) (r1 r2 : ScoreRecord)
    (h1 : r1 ∈ rs) (h2 : r2 ∈ rs) (hne : r1.judge_name ≠ r2.judge_name) :
    nuniqueJudges rs = ((rs.map ScoreRecord.judge_name).toFinset).card ∧
    2 ≤ nuniqueJudges rs := by
  have hcard : nuniqueJudges rs = ((rs.map ScoreRecord.judge_name).toFinset).card :=
    (List.card_toFinset _).symm
  refine ⟨hcard, ?_⟩
  rw [hcard]
  exact Finset.one_lt_card.2
    ⟨r1.judge_name, List.mem_toFinset.2 (List.mem_map_of_mem _ h1),
     r2.judge_name, List.mem_toFinset.2 (List.mem_map_of_mem _ h2), hne⟩

/-- Witness for C7 (amended) on the concrete two-case store. -/
theorem judge_count_case_sensitive_witness :
    nuniqueJudges caseRecs = ((caseRecs.map ScoreRecord.judge_name).toFinset).card ∧
    2 ≤ nuniqueJudges caseRecs :=
  judge_count_case_sensitive caseRecs
    ⟨"t1", "alice", "TeamA", 5, 5, 5, 5⟩ ⟨"t2", "Alice", "TeamB", 5, 5, 5, 5⟩
    (by decide) (by decide) (by decide)

/-- A one-row store scoring only team "Fluid". -/
def demoUnscored : List ScoreRecord := [⟨"t", "J", "Fluid", 5, 5, 5, 5⟩]

/-- C8: for every non-empty store, the "not yet scored" tail lists exactly
the enumerated teams with zero stored scores, in ascending string order, and
none of them occurs in the ranked list. -/
theorem unscored_teams_section (rs : List ScoreRecord) (hne : rs ≠ []) :
    List.Sorted strLe (unscored_teams rs) ∧
    (∀ t, t ∈ unscored_teams rs ↔ (t ∈ TEAM_NAMES ∧ ∀ r ∈ rs, r.team_name ≠ t)) ∧
    (∀ t ∈ unscored_teams rs, ∀ a ∈ team_stats rs, a.team_name ≠ t) := by
  have hmem : ∀ t, t ∈ unscored_teams rs ↔ (t ∈ TEAM_NAMES ∧ ∀ r ∈ rs, r.team_name ≠ t) := by
    intro t
    simp [unscored_teams, List.mem_insertionSort, List.mem_dedup, List.mem_filter,
      List.mem_map]
  refine ⟨@List.sorted_insertionSort String strLe _ ⟨strLe_total⟩ ⟨strLe_trans⟩ _, hmem, ?_⟩
  intro t htm a ha
  have hnot := ((hmem t).1 htm).2
  rw [team_stats, List.mem_insertionSort] at ha
  obtain ⟨k, hk, rfl⟩ := List.mem_map.1 ha
  rw [teamKeys, List.mem_insertionSort, List.mem_dedup, List.mem_map] at hk
  obtain ⟨r, hr, rfl⟩ := hk
  simpa [teamAggregate] using hnot r hr

/-- Witness for C8 on the concrete one-row store: "ChaiBiscuit" (unscored)
is in the tail, "Fluid" (scored) is not. -/
theorem unscored_teams_section_witness :
    ("ChaiBiscuit" : String) ∈ unscored_teams demoUnscored ∧
    ("Fluid" : String) ∉ unscored_teams demoUnscored :=
  ⟨((unscored_teams_section demoUnscored (by decide)).2.1 ("ChaiBiscuit")).2
      ⟨by decide, by decide⟩,
   fun h => (((unscored_teams_section demoUnscored (by decide)).2.1 ("Fluid")).1 h).2
      ⟨"t", "J", "Fluid", 5, 5, 5, 5⟩ (by decide) rfl⟩

end
